import Mathlib

/-
Verification of the parameter-composition engine of the `inkwell` email
generator: the slider level classifiers, the instruction catalogs and the
prompt compiler (`app/models.py`, `app/services/email.py`), the spam risk
scorer (`calculate_spam_score`), and the response parser
(`EmailService.parse_response`).

Strings are modelled through their character lists.  Python `str.lower` is
modelled with `Char.toLower` (ASCII folding), `str.isupper` with
`Char.isUpper`, Python `in` with a contiguous-sublist check, and the float
comparison `upper_ratio > 0.5` with the exact rational comparison
`2 * upper > max len 1`.
-/

/-! ### Python string primitives -/

/-- `needle` is a prefix of `hay` (Python `str.startswith`). -/
def isPrefixL : List Char → List Char → Bool
  | [], _ => true
  | _ :: _, [] => false
  | a :: as, b :: bs => a == b && isPrefixL as bs

/-- `needle` occurs as a contiguous substring of `hay` (Python `in`). -/
def infixL (needle : List Char) : List Char → Bool
  | [] => needle.isEmpty
  | b :: bs => isPrefixL needle (b :: bs) || infixL needle bs

/-- Python `needle in hay` on strings. -/
def containsSub (needle hay : String) : Bool :=
  infixL needle.data hay.data

/-- Scanner for `countSub`: while `skip > 0` the position is inside the last
match and is passed over without testing. -/
def countSubAux (needle : List Char) : Nat → List Char → Nat
  | _, [] => 0
  | k + 1, _ :: bs => countSubAux needle k bs
  | 0, b :: bs =>
    if isPrefixL needle (b :: bs) then 1 + countSubAux needle (needle.length - 1) bs
    else countSubAux needle 0 bs

/-- Count non-overlapping occurrences of `needle` (Python `str.count`). -/
def countSub (needle : List Char) (hay : List Char) : Nat :=
  countSubAux needle 0 hay

/-- Python `str.lower()`, ASCII case folding. -/
def pyLower (s : String) : String :=
  ⟨s.data.map Char.toLower⟩

/-- Python `str.strip()`: drop whitespace from both ends. -/
def pyStrip (s : String) : String :=
  ⟨((s.data.dropWhile Char.isWhitespace).reverse.dropWhile Char.isWhitespace).reverse⟩

/-- Splitting on a one-character separator, keeping empty groups
(Python `str.split(sep)`): `"".split(",") = [""]`, `",".split(",") = ["", ""]`. -/
def pySplitList (sep : Char) : List Char → List (List Char)
  | [] => [[]]
  | c :: cs =>
    match pySplitList sep cs with
    | [] => if c == sep then [[], []] else [[c]]
    | g :: gs => if c == sep then [] :: g :: gs else (c :: g) :: gs

/-- Python `s.split(sep)` for a one-character separator. -/
def pySplit (sep : Char) (s : String) : List String :=
  (pySplitList sep s.data).map (fun cs => ⟨cs⟩)

/-! ### Risk scorer (`calculate_spam_score`, `app/models.py`) -/

/-- High-risk spam trigger phrases (10 points each). -/
def spamTriggersHigh : List String :=
  ["act now", "limited time", "urgent", "immediate action",
   "click here", "click below", "buy now", "order now",
   "free money", "cash bonus", "winner", "you won",
   "congratulations", "100% free", "risk free", "no obligation",
   "double your", "earn extra", "make money fast"]

/-- Medium-risk spam trigger phrases (5 points each). -/
def spamTriggersMedium : List String :=
  ["special offer", "exclusive deal", "discount", "save big",
   "lowest price", "best price", "cheap", "bargain",
   "guarantee", "no questions asked", "satisfaction guaranteed",
   "call now", "apply now", "sign up free", "subscribe now",
   "dear friend", "dear customer"]

/-- Low-risk spam trigger phrases (2 points each, no warning). -/
def spamTriggersLow : List String :=
  ["free", "bonus", "offer", "deal", "promo",
   "!!!", "???", "all caps", "$$$"]

/-- Spam likelihood score and warnings, translated line by line from
`calculate_spam_score` in `app/models.py`. -/
def calculate_spam_score (subject body : String) : Int × List String :=
  let text := pyLower (subject ++ " " ++ body)
  let subject_lower := pyLower subject
  let acc := spamTriggersHigh.foldl
    (fun acc t => if containsSub t text then
        (acc.1 + 10, acc.2 ++ ["High-risk phrase: \x27" ++ t ++ "\x27"]) else acc)
    ((0 : Int), ([] : List String))
  let acc := spamTriggersMedium.foldl
    (fun acc t => if containsSub t text then
        (acc.1 + 5, acc.2 ++ ["Medium-risk phrase: \x27" ++ t ++ "\x27"]) else acc) acc
  let acc := spamTriggersLow.foldl
    (fun acc t => if containsSub t text then (acc.1 + 2, acc.2) else acc) acc
  let acc := if 2 * (subject.data.filter Char.isUpper).length > max subject.data.length 1
                ∧ 5 < subject.data.length then
      (acc.1 + 15, acc.2 ++ ["Excessive capitals in subject line"]) else acc
  let acc := if 1 < countSub ['!'] subject.data then
      (acc.1 + 10, acc.2 ++ ["Multiple exclamation marks in subject"]) else acc
  let acc := if containsSub "!!!" text || containsSub "???" text then
      (acc.1 + 10, acc.2 ++ ["Excessive punctuation detected"]) else acc
  let acc := if isPrefixL "re:".data subject_lower.data ∧ body = "" then
      (acc.1 + 5, acc.2 ++ ["Empty reply email"]) else acc
  let acc := if isPrefixL "fw:".data subject_lower.data || isPrefixL "fwd:".data subject_lower.data then
      (acc.1 + 3, acc.2) else acc
  let url_count := countSub "http://".data text.data + countSub "https://".data text.data
      + countSub "www.".data text.data
  let acc := if 3 < url_count then
      (acc.1 + 10, acc.2 ++ ["High URL density (" ++ toString url_count ++ " links)"]) else acc
  (min acc.1 100, acc.2)

/-! ### Rule-by-rule decomposition of the scorer -/

/-- Triggers of a tier found in the lowered text, in table order. -/
def triggerHits (triggers : List String) (text : String) : List String :=
  triggers.filter (fun t => containsSub t text)

/-- The lowered concatenation `(subject + " " + body).lower()`. -/
def spamText (subject body : String) : String :=
  pyLower (subject ++ " " ++ body)

/-- Score and warnings contributed by the high-risk phrase rules. -/
def highPart (text : String) : Int × List String :=
  (10 * ((triggerHits spamTriggersHigh text).length : Int),
   (triggerHits spamTriggersHigh text).map (fun t => "High-risk phrase: \x27" ++ t ++ "\x27"))

/-- Score and warnings contributed by the medium-risk phrase rules. -/
def mediumPart (text : String) : Int × List String :=
  (5 * ((triggerHits spamTriggersMedium text).length : Int),
   (triggerHits spamTriggersMedium text).map (fun t => "Medium-risk phrase: \x27" ++ t ++ "\x27"))

/-- Score contributed by the low-risk phrase rules (no warnings). -/
def lowPart (text : String) : Int × List String :=
  (2 * ((triggerHits spamTriggersLow text).length : Int), [])

/-- The excessive-capitalization rule over the original subject. -/
def capsPart (subject : String) : Int × List String :=
  if 2 * (subject.data.filter Char.isUpper).length > max subject.data.length 1
      ∧ 5 < subject.data.length then
    (15, ["Excessive capitals in subject line"])
  else (0, [])

/-- The multiple-exclamation-marks rule over the original subject. -/
def exclPart (subject : String) : Int × List String :=
  if 1 < countSub ['!'] subject.data then
    (10, ["Multiple exclamation marks in subject"])
  else (0, [])

/-- The burst-punctuation rule over the lowered text. -/
def burstPart (text : String) : Int × List String :=
  if containsSub "!!!" text || containsSub "???" text then
    (10, ["Excessive punctuation detected"])
  else (0, [])

/-- The empty-reply rule. -/
def replyPart (subject body : String) : Int × List String :=
  if isPrefixL "re:".data (pyLower subject).data ∧ body = "" then
    (5, ["Empty reply email"])
  else (0, [])

/-- The forward rule (no warning). -/
def fwdPart (subject : String) : Int × List String :=
  if isPrefixL "fw:".data (pyLower subject).data || isPrefixL "fwd:".data (pyLower subject).data then
    (3, [])
  else (0, [])

/-- Number of URL markers in the lowered text. -/
def urlCount (text : String) : Nat :=
  countSub "http://".data text.data + countSub "https://".data text.data
    + countSub "www.".data text.data

/-- The URL-density rule over the lowered text. -/
def urlPart (text : String) : Int × List String :=
  if 3 < urlCount text then
    (10, ["High URL density (" ++ toString (urlCount text) ++ " links)"])
  else (0, [])

theorem foldl_trigger_warn (pts : Int) (f : String → String) (text : String) :
    ∀ (l : List String) (a : Int) (w : List String),
      l.foldl (fun acc t => if containsSub t text then (acc.1 + pts, acc.2 ++ [f t]) else acc) (a, w)
        = (a + pts * ((l.filter (fun t => containsSub t text)).length : Int),
           w ++ (l.filter (fun t => containsSub t text)).map f) := by
  intro l
  induction l with
  | nil => intro a w; simp
  | cons t l ih =>
    intro a w
    rw [List.foldl_cons]
    simp only [List.filter_cons]
    by_cases h : containsSub t text
    · simp only [h, if_true, ih, List.map_cons, List.length_cons]
      refine Prod.ext ?_ ?_
      · push_cast
        ring
      · simp
    · simp [h, ih]

theorem foldl_trigger_nowarn (pts : Int) (text : String) :
    ∀ (l : List String) (a : Int) (w : List String),
      l.foldl (fun acc t => if containsSub t text then (acc.1 + pts, acc.2) else acc) (a, w)
        = (a + pts * ((l.filter (fun t => containsSub t text)).length : Int), w) := by
  intro l
  induction l with
  | nil => intro a w; simp
  | cons t l ih =>
    intro a w
    rw [List.foldl_cons]
    simp only [List.filter_cons]
    by_cases h : containsSub t text
    · simp only [h, if_true, ih, List.length_cons]
      refine Prod.ext ?_ rfl
      push_cast
      ring
    · simp [h, ih]

theorem step_ite (c : Prop) [Decidable c] (p : Int) (ws : List String) (x : Int) (y : List String) :
    (if c then (x + p, y ++ ws) else (x, y))
      = (x + (if c then p else 0), y ++ (if c then ws else [])) := by
  split <;> simp

theorem step_ite_score (c : Prop) [Decidable c] (p : Int) (x : Int) (y : List String) :
    (if c then (x + p, y) else (x, y)) = (x + (if c then p else 0), y) := by
  split <;> simp

theorem ite_pair_fst (c : Prop) [Decidable c] (p : Int) (ws : List String) :
    (if c then (p, ws) else ((0 : Int), ([] : List String))).1 = if c then p else 0 := by
  split <;> rfl

theorem ite_pair_snd (c : Prop) [Decidable c] (p : Int) (ws : List String) :
    (if c then (p, ws) else ((0 : Int), ([] : List String))).2 = if c then ws else [] := by
  split <;> rfl

/-- The scorer is the capped sum of the per-rule scores and the in-order
concatenation of the per-rule warnings. -/
theorem spam_decomp (subject body : String) :
    calculate_spam_score subject body =
      (min ((highPart (spamText subject body)).1 + (mediumPart (spamText subject body)).1
            + (lowPart (spamText subject body)).1 + (capsPart subject).1 + (exclPart subject).1
            + (burstPart (spamText subject body)).1 + (replyPart subject body).1
            + (fwdPart subject).1 + (urlPart (spamText subject body)).1) 100,
       (highPart (spamText subject body)).2 ++ (mediumPart (spamText subject body)).2
         ++ (capsPart subject).2 ++ (exclPart subject).2 ++ (burstPart (spamText subject body)).2
         ++ (replyPart subject body).2 ++ (urlPart (spamText subject body)).2) := by
  unfold calculate_spam_score spamText highPart mediumPart lowPart capsPart exclPart burstPart
    replyPart fwdPart urlPart urlCount triggerHits
  simp only [foldl_trigger_warn, foldl_trigger_nowarn]
  simp only [step_ite, step_ite_score]
  simp only [ite_pair_fst, ite_pair_snd, List.nil_append, List.append_assoc, Int.zero_add,
    Int.add_assoc]

theorem highPart_fst_nonneg (t : String) : 0 ≤ (highPart t).1 := by
  unfold highPart; positivity

theorem mediumPart_fst_nonneg (t : String) : 0 ≤ (mediumPart t).1 := by
  unfold mediumPart; positivity

theorem lowPart_fst_nonneg (t : String) : 0 ≤ (lowPart t).1 := by
  unfold lowPart; positivity

theorem capsPart_fst_nonneg (s : String) : 0 ≤ (capsPart s).1 := by
  unfold capsPart; split <;> norm_num

theorem exclPart_fst_nonneg (s : String) : 0 ≤ (exclPart s).1 := by
  unfold exclPart; split <;> norm_num

theorem burstPart_fst_nonneg (t : String) : 0 ≤ (burstPart t).1 := by
  unfold burstPart; split <;> norm_num

theorem replyPart_fst_nonneg (s b : String) : 0 ≤ (replyPart s b).1 := by
  unfold replyPart; split <;> norm_num

theorem fwdPart_fst_nonneg (s : String) : 0 ≤ (fwdPart s).1 := by
  unfold fwdPart; split <;> norm_num

theorem urlPart_fst_nonneg (t : String) : 0 ≤ (urlPart t).1 := by
  unfold urlPart; split <;> norm_num

/-- **C2.** For every pair of strings `(subject, body)`, `calculate_spam_score`
returns a score that is an integer in `[0, 100]` — never negative and never
above `100`, however many trigger rules fire — and a warnings list that is the
concatenation of the per-rule warnings in the fixed rule-evaluation order
(high-risk phrases, medium-risk phrases, capitalization, exclamation marks,
burst punctuation, empty reply, URL density). -/
theorem spam_score_bounds (subject body : String) :
    0 ≤ (calculate_spam_score subject body).1 ∧ (calculate_spam_score subject body).1 ≤ 100 := by
  have hd := spam_decomp subject body
  constructor
  · rw [hd]
    refine le_min ?_ (by norm_num)
    have h1 := highPart_fst_nonneg (spamText subject body)
    have h2 := mediumPart_fst_nonneg (spamText subject body)
    have h3 := lowPart_fst_nonneg (spamText subject body)
    have h4 := capsPart_fst_nonneg subject
    have h5 := exclPart_fst_nonneg subject
    have h6 := burstPart_fst_nonneg (spamText subject body)
    have h7 := replyPart_fst_nonneg subject body
    have h8 := fwdPart_fst_nonneg subject
    have h9 := urlPart_fst_nonneg (spamText subject body)
    omega
  · rw [hd]
    exact min_le_right _ _

theorem spam_score_in_range_and_warnings_ordered (subject body : String) :
    0 ≤ (calculate_spam_score subject body).1 ∧
    (calculate_spam_score subject body).1 ≤ 100 ∧
    (calculate_spam_score subject body).2 =
      (highPart (spamText subject body)).2 ++ (mediumPart (spamText subject body)).2
        ++ (capsPart subject).2 ++ (exclPart subject).2 ++ (burstPart (spamText subject body)).2
        ++ (replyPart subject body).2 ++ (urlPart (spamText subject body)).2 :=
  ⟨(spam_score_bounds subject body).1, (spam_score_bounds subject body).2, by
    rw [spam_decomp]⟩

/-! ### Case folding lemmas -/

theorem char_toNat_ofNat (n : Nat) (h : n.isValidChar) : (Char.ofNat n).toNat = n := by
  rw [Char.ofNat, dif_pos h]
  simp [Char.ofNatAux, Char.toNat, UInt32.toNat, BitVec.toNat_ofNatLt]

theorem toLower_toLower (c : Char) : Char.toLower (Char.toLower c) = Char.toLower c := by
  unfold Char.toLower
  by_cases h : 65 ≤ c.toNat ∧ c.toNat ≤ 90
  · rw [if_pos h]
    have hv : Nat.isValidChar (c.toNat + 32) := by left; omega
    rw [char_toNat_ofNat _ hv]
    rw [if_neg (by omega)]
  · rw [if_neg h, if_neg h]

theorem toLower_eq_bang (c : Char) : (Char.toLower c = '!') ↔ (c = '!') := by
  constructor
  · intro h
    unfold Char.toLower at h
    by_cases hc : 65 ≤ c.toNat ∧ c.toNat ≤ 90
    · rw [if_pos hc] at h
      have hv : Nat.isValidChar (c.toNat + 32) := by left; omega
      have h2 := congrArg Char.toNat h
      rw [char_toNat_ofNat _ hv] at h2
      have h3 : Char.toNat (Char.ofNat 33) = 33 := by decide
      have h4 : ('!' : Char).toNat = 33 := by decide
      omega
    · rwa [if_neg hc] at h
  · intro h; subst h; rfl

theorem pyLower_append (s t : String) : pyLower (s ++ t) = pyLower s ++ pyLower t := by
  show String.mk ((s ++ t).data.map Char.toLower) = _
  rw [String.data_append, List.map_append]
  rfl

theorem pyLower_idem (s : String) : pyLower (pyLower s) = pyLower s := by
  show String.mk ((s.data.map Char.toLower).map Char.toLower) = _
  rw [List.map_map]
  have h : Char.toLower ∘ Char.toLower = Char.toLower := funext toLower_toLower
  rw [h]
  rfl

theorem pyLower_eq_empty_iff (s : String) : pyLower s = "" ↔ s = "" := by
  rcases s with ⟨l⟩
  show String.mk (l.map Char.toLower) = String.mk [] ↔ String.mk l = String.mk []
  simp only [String.ext_iff]
  simp

theorem pyLower_space : pyLower " " = " " := by decide

theorem spamText_lower (s b : String) : spamText (pyLower s) (pyLower b) = spamText s b := by
  unfold spamText
  rw [pyLower_append, pyLower_append, pyLower_append, pyLower_append,
    pyLower_idem, pyLower_idem, pyLower_space]

theorem countSub_bang_map_toLower : ∀ l : List Char,
    countSub ['!'] (l.map Char.toLower) = countSub ['!'] l := by
  intro l
  show countSubAux ['!'] 0 (l.map Char.toLower) = countSubAux ['!'] 0 l
  induction l with
  | nil => rfl
  | cons b bs ih =>
    rw [List.map_cons]
    by_cases hb : b = '!'
    · have hlb : Char.toLower b = '!' := (toLower_eq_bang b).mpr hb
      simp [countSubAux, isPrefixL, hb, hlb, ih]
    · have hlb : Char.toLower b ≠ '!' := fun h => hb ((toLower_eq_bang b).mp h)
      have h1 : ¬ (('!' : Char) = Char.toLower b) := fun h => hlb h.symm
      have h2 : ¬ (('!' : Char) = b) := fun h => hb h.symm
      simp [countSubAux, isPrefixL, h1, h2, ih]

theorem exclPart_lower (s : String) : exclPart (pyLower s) = exclPart s := by
  unfold exclPart
  have h : (pyLower s).data = s.data.map Char.toLower := rfl
  rw [h, countSub_bang_map_toLower]

theorem replyPart_lower (s b : String) : replyPart (pyLower s) (pyLower b) = replyPart s b := by
  unfold replyPart
  rw [pyLower_idem]
  exact if_congr (and_congr Iff.rfl (pyLower_eq_empty_iff b)) rfl rfl

theorem fwdPart_lower (s : String) : fwdPart (pyLower s) = fwdPart s := by
  unfold fwdPart
  rw [pyLower_idem]

/-- **C8.** Lower-casing subject and body before scoring changes the result
only through the capitalization rule, which reads the original subject: both
results decompose into identical phrase/punctuation/reply/URL contributions
(computed from the shared lowered concatenation) around the respective
capitalization contribution. -/
theorem spam_score_case_symmetry (s b : String) :
    ∃ (w₁ w₂ : List String) (base : Int),
      calculate_spam_score s b
        = (min (base + (capsPart s).1) 100, w₁ ++ (capsPart s).2 ++ w₂) ∧
      calculate_spam_score (pyLower s) (pyLower b)
        = (min (base + (capsPart (pyLower s)).1) 100, w₁ ++ (capsPart (pyLower s)).2 ++ w₂) := by
  refine ⟨(highPart (spamText s b)).2 ++ (mediumPart (spamText s b)).2,
    (exclPart s).2 ++ ((burstPart (spamText s b)).2 ++ ((replyPart s b).2 ++ (urlPart (spamText s b)).2)),
    (highPart (spamText s b)).1 + (mediumPart (spamText s b)).1 + (lowPart (spamText s b)).1
      + (exclPart s).1 + (burstPart (spamText s b)).1 + (replyPart s b).1 + (fwdPart s).1
      + (urlPart (spamText s b)).1, ?_, ?_⟩
  · rw [spam_decomp, Prod.mk.injEq]
    refine ⟨?_, ?_⟩
    · omega
    · simp [List.append_assoc]
  · rw [spam_decomp]
    rw [spamText_lower, exclPart_lower, replyPart_lower, fwdPart_lower]
    rw [Prod.mk.injEq]
    refine ⟨?_, ?_⟩
    · omega
    · simp [List.append_assoc]

/-- **C9.** On subject `"FREE MONEY!!! ACT NOW"` and empty body the scorer
reports the high-risk phrases `free money` and `act now`, the burst-punctuation
rule and the excessive-capitalization rule, and the total score is at least
`45 = 10 + 10 + 15 + 10`, with the cap at `100` respected. -/
theorem spam_score_free_money_example :
    45 ≤ (calculate_spam_score "FREE MONEY!!! ACT NOW" "").1 ∧
    (calculate_spam_score "FREE MONEY!!! ACT NOW" "").1 ≤ 100 ∧
    "High-risk phrase: \x27free money\x27" ∈ (calculate_spam_score "FREE MONEY!!! ACT NOW" "").2 ∧
    "High-risk phrase: \x27act now\x27" ∈ (calculate_spam_score "FREE MONEY!!! ACT NOW" "").2 ∧
    "Excessive punctuation detected" ∈ (calculate_spam_score "FREE MONEY!!! ACT NOW" "").2 ∧
    "Excessive capitals in subject line" ∈ (calculate_spam_score "FREE MONEY!!! ACT NOW" "").2 := by
  decide

/-! ### Enumerations (`app/models.py`, `app/prompts.py`) -/

inductive ToneLevel
  | very_formal | formal | neutral | friendly | casual
deriving DecidableEq

inductive LengthLevel
  | very_brief | concise | moderate | detailed | comprehensive
deriving DecidableEq

inductive UrgencyLevel
  | none | low | moderate | high | critical
deriving DecidableEq

inductive CTAStrength
  | subtle | gentle | moderate | direct | strong
deriving DecidableEq

inductive PolitenessLevel
  | blunt | direct | polite | very_polite | deferential
deriving DecidableEq

inductive SalutationStyle
  | none | formal | standard | friendly | casual
deriving DecidableEq

inductive SignOffStyle
  | none | formal | professional | friendly | casual | warm
deriving DecidableEq

/-- The source names this enum `Language`; that name is taken by Mathlib. -/
inductive EmailLanguage
  | english | spanish | french | german | italian | portuguese
  | dutch | japanese | chinese | korean | hindi | arabic
deriving DecidableEq

inductive AudienceType
  | general | manager | executive | peer | subordinate
  | client | vendor | recruiter | professor | student
deriving DecidableEq

inductive PurposeTag
  | general | request | inform | persuade | thank
  | apologize | negotiate | decline | introduce | follow_up
deriving DecidableEq

inductive ResponseType
  | none | accept | decline | counter_offer | request_clarification
  | acknowledge | defer
deriving DecidableEq

inductive IndustryContext
  | general | tech | finance | legal | medical
  | academic | sales | hr | marketing | consulting
deriving DecidableEq

inductive RecipientRelationship
  | unknown | first_contact | new_acquaintance | established
  | close_colleague | internal | external
deriving DecidableEq

inductive EmailPreset
  | general | application | introduction | cold_email | follow_up
deriving DecidableEq

/-! ### Level classifiers (`EmailRequest` properties, `app/models.py`) -/

/-- `EmailRequest.tone_level`. -/
def tone_level (tone : Nat) : ToneLevel :=
  if tone < 20 then ToneLevel.very_formal
  else if tone < 40 then ToneLevel.formal
  else if tone < 60 then ToneLevel.neutral
  else if tone < 80 then ToneLevel.friendly
  else ToneLevel.casual

/-- `EmailRequest.length_level`. -/
def length_level (length : Nat) : LengthLevel :=
  if length < 20 then LengthLevel.very_brief
  else if length < 40 then LengthLevel.concise
  else if length < 60 then LengthLevel.moderate
  else if length < 80 then LengthLevel.detailed
  else LengthLevel.comprehensive

/-- `EmailRequest.urgency_level`. -/
def urgency_level (urgency : Nat) : UrgencyLevel :=
  if urgency < 20 then UrgencyLevel.none
  else if urgency < 40 then UrgencyLevel.low
  else if urgency < 60 then UrgencyLevel.moderate
  else if urgency < 80 then UrgencyLevel.high
  else UrgencyLevel.critical

/-- `EmailRequest.cta_strength_level`. -/
def cta_strength_level (cta_strength : Nat) : CTAStrength :=
  if cta_strength < 20 then CTAStrength.subtle
  else if cta_strength < 40 then CTAStrength.gentle
  else if cta_strength < 60 then CTAStrength.moderate
  else if cta_strength < 80 then CTAStrength.direct
  else CTAStrength.strong

/-- `EmailRequest.politeness_level`. -/
def politeness_level (politeness : Nat) : PolitenessLevel :=
  if politeness < 20 then PolitenessLevel.blunt
  else if politeness < 40 then PolitenessLevel.direct
  else if politeness < 60 then PolitenessLevel.polite
  else if politeness < 80 then PolitenessLevel.very_polite
  else PolitenessLevel.deferential

/-! ### Instruction catalogs (`EmailRequest` description properties) -/

/-- `EmailRequest.tone_description`. -/
def tone_description (tone : Nat) : String :=
  match tone_level tone with
  | ToneLevel.very_formal => "very formal and professional"
  | ToneLevel.formal => "formal but approachable"
  | ToneLevel.neutral => "balanced and neutral"
  | ToneLevel.friendly => "friendly and conversational"
  | ToneLevel.casual => "casual and relaxed"

/-- `EmailRequest.length_description`. -/
def length_description (length : Nat) : String :=
  match length_level length with
  | LengthLevel.very_brief => "very brief (2-3 sentences)"
  | LengthLevel.concise => "concise (1 short paragraph)"
  | LengthLevel.moderate => "moderate (2-3 paragraphs)"
  | LengthLevel.detailed => "detailed (3-4 paragraphs)"
  | LengthLevel.comprehensive => "comprehensive and thorough (4+ paragraphs)"

/-- `EmailRequest.urgency_description`; the `NONE` level yields no directive. -/
def urgency_description (urgency : Nat) : Option String :=
  match urgency_level urgency with
  | UrgencyLevel.none => Option.none
  | UrgencyLevel.low => some "slightly time-sensitive, gently mention timing"
  | UrgencyLevel.moderate => some "moderately urgent, clearly convey time importance"
  | UrgencyLevel.high => some "high urgency, emphasize immediate attention needed"
  | UrgencyLevel.critical =>
    some "critical urgency, strongly emphasize this is time-critical and requires immediate action"

/-- `EmailRequest.cta_description`. -/
def cta_description (cta_strength : Nat) : String :=
  match cta_strength_level cta_strength with
  | CTAStrength.subtle => "subtle and implied call-to-action, no direct ask"
  | CTAStrength.gentle => "gentle suggestion, soft ask"
  | CTAStrength.moderate => "clear but polite call-to-action"
  | CTAStrength.direct => "direct and explicit call-to-action"
  | CTAStrength.strong => "strong, assertive call-to-action with clear expectation of response"

/-- `EmailRequest.politeness_description`. -/
def politeness_description (politeness : Nat) : String :=
  match politeness_level politeness with
  | PolitenessLevel.blunt => "blunt and straightforward, minimal pleasantries"
  | PolitenessLevel.direct => "direct but not rude, minimal softening language"
  | PolitenessLevel.polite => "polite with appropriate courtesies"
  | PolitenessLevel.very_polite => "very polite with extra courtesies and softening language"
  | PolitenessLevel.deferential => "highly deferential, very respectful with formal courtesies"

/-- `EmailRequest.salutation_description` (defined for every style). -/
def salutation_description : SalutationStyle → String
  | SalutationStyle.none => "Do not include any greeting/salutation"
  | SalutationStyle.formal => "Use formal salutation (Dear Mr./Ms./Dr. [Name])"
  | SalutationStyle.standard => "Use standard salutation (Dear [Name])"
  | SalutationStyle.friendly => "Use friendly salutation (Hi [Name] or Hello [Name])"
  | SalutationStyle.casual => "Use casual salutation (Hey [Name])"

/-- `EmailRequest.sign_off_description` (defined for every style). -/
def sign_off_description : SignOffStyle → String
  | SignOffStyle.none => "Do not include any sign-off or closing"
  | SignOffStyle.formal => "Use formal sign-off (Sincerely, Respectfully, Yours faithfully)"
  | SignOffStyle.professional => "Use professional sign-off (Best regards, Kind regards)"
  | SignOffStyle.friendly => "Use friendly sign-off (Best, Thanks, Thank you)"
  | SignOffStyle.casual => "Use casual sign-off (Cheers, Take care, Talk soon)"
  | SignOffStyle.warm => "Use warm sign-off (Warm regards, Warmly, With appreciation)"

/-- `EmailRequest.language_description`. -/
def language_description : EmailLanguage → String
  | EmailLanguage.english => "English"
  | EmailLanguage.spanish => "Spanish"
  | EmailLanguage.french => "French"
  | EmailLanguage.german => "German"
  | EmailLanguage.italian => "Italian"
  | EmailLanguage.portuguese => "Portuguese"
  | EmailLanguage.dutch => "Dutch"
  | EmailLanguage.japanese => "Japanese"
  | EmailLanguage.chinese => "Chinese (Simplified)"
  | EmailLanguage.korean => "Korean"
  | EmailLanguage.hindi => "Hindi"
  | EmailLanguage.arabic => "Arabic"

/-- `EmailRequest.audience_description`; `GENERAL` yields no directive. -/
def audience_description : AudienceType → Option String
  | AudienceType.general => Option.none
  | AudienceType.manager =>
    some "writing to a manager/supervisor - be respectful of their time and position"
  | AudienceType.executive =>
    some "writing to an executive/C-level - be concise, focus on impact and outcomes"
  | AudienceType.peer =>
    some "writing to a peer/colleague - maintain professional but collegial tone"
  | AudienceType.subordinate =>
    some "writing to a subordinate/team member - be clear and supportive"
  | AudienceType.client =>
    some "writing to a client - be professional, service-oriented, and solution-focused"
  | AudienceType.vendor =>
    some "writing to a vendor/supplier - be clear about requirements and expectations"
  | AudienceType.recruiter =>
    some "writing to a recruiter - highlight relevant qualifications professionally"
  | AudienceType.professor =>
    some "writing to a professor/academic - be respectful and scholarly"
  | AudienceType.student =>
    some "writing to a student - be clear, helpful, and encouraging"

/-- `EmailRequest.purpose_description`; `GENERAL` yields no directive. -/
def purpose_description : PurposeTag → Option String
  | PurposeTag.general => Option.none
  | PurposeTag.request =>
    some "primary purpose is to request something - be clear about what you need"
  | PurposeTag.inform =>
    some "primary purpose is to inform/update - focus on clarity and key information"
  | PurposeTag.persuade =>
    some "primary purpose is to persuade - use compelling arguments and benefits"
  | PurposeTag.thank =>
    some "primary purpose is to thank - be sincere and specific about gratitude"
  | PurposeTag.apologize =>
    some "primary purpose is to apologize - be sincere, take responsibility, offer resolution"
  | PurposeTag.negotiate =>
    some "primary purpose is to negotiate - be diplomatic, present options, seek win-win"
  | PurposeTag.decline =>
    some "primary purpose is to decline - be polite but firm, offer alternatives if possible"
  | PurposeTag.introduce =>
    some "primary purpose is to introduce yourself/someone - be memorable and establish relevance"
  | PurposeTag.follow_up =>
    some "primary purpose is to follow up - reference previous interaction, add value"

/-- `EmailRequest.response_type_description`; `NONE` yields no directive. -/
def response_type_description : ResponseType → Option String
  | ResponseType.none => Option.none
  | ResponseType.accept =>
    some "this is an acceptance response - confirm clearly and express appreciation"
  | ResponseType.decline =>
    some "this is a decline response - be polite but clear, offer alternatives if appropriate"
  | ResponseType.counter_offer =>
    some "this is a counter-offer response - acknowledge original, present alternative professionally"
  | ResponseType.request_clarification =>
    some "this is a clarification request - be specific about what needs clarification"
  | ResponseType.acknowledge =>
    some "this is an acknowledgment response - confirm receipt and next steps if any"
  | ResponseType.defer =>
    some "this is a deferral response - explain timeline and commit to follow-up"

/-- `EmailRequest.industry_description`; `GENERAL` yields no directive. -/
def industry_description : IndustryContext → Option String
  | IndustryContext.general => Option.none
  | IndustryContext.tech =>
    some "tech/software industry context - can use technical terms appropriately"
  | IndustryContext.finance =>
    some "finance/banking industry context - use financial terminology appropriately"
  | IndustryContext.legal =>
    some "legal industry context - be precise, use legal terminology carefully"
  | IndustryContext.medical =>
    some "medical/healthcare industry context - use medical terminology appropriately"
  | IndustryContext.academic =>
    some "academic/research context - use scholarly tone and terminology"
  | IndustryContext.sales =>
    some "sales context - focus on value proposition and relationship building"
  | IndustryContext.hr =>
    some "HR/people operations context - be professional and policy-aware"
  | IndustryContext.marketing =>
    some "marketing context - be creative and brand-conscious"
  | IndustryContext.consulting =>
    some "consulting context - be advisory and solution-oriented"

/-- `EmailRequest.relationship_description`; `UNKNOWN` yields no directive. -/
def relationship_description : RecipientRelationship → Option String
  | RecipientRelationship.unknown => Option.none
  | RecipientRelationship.first_contact =>
    some "this is first contact - introduce context and establish relevance"
  | RecipientRelationship.new_acquaintance =>
    some "recently met - reference how you connected"
  | RecipientRelationship.established =>
    some "established relationship - can be more direct"
  | RecipientRelationship.close_colleague =>
    some "close colleague - can be more informal while professional"
  | RecipientRelationship.internal =>
    some "internal communication - can assume shared context"
  | RecipientRelationship.external =>
    some "external communication - be more formal and explanatory"

/-! ### Validated request (`EmailRequest`, `app/models.py`) -/

/-- A validated `EmailRequest`: sliders hold values in `[0, 100]` (enforced at
construction, see `mkEmailRequest`), categoricals are members of their closed
enums.  Defaults as in the source. -/
structure EmailRequest where
  preset : EmailPreset := EmailPreset.general
  incoming_email : String := ""
  recipient_name : String := ""
  sender_name : String := ""
  tone : Nat := 50
  length : Nat := 50
  temperature : Nat := 70
  use_lists : Bool := false
  custom_instructions : String := ""
  urgency : Nat := 0
  cta_strength : Nat := 50
  politeness : Nat := 50
  salutation_style : SalutationStyle := SalutationStyle.standard
  sign_off_style : SignOffStyle := SignOffStyle.professional
  language : EmailLanguage := EmailLanguage.english
  audience_type : AudienceType := AudienceType.general
  purpose : PurposeTag := PurposeTag.general
  keywords_to_include : String := ""
  response_type : ResponseType := ResponseType.none
  industry : IndustryContext := IndustryContext.general
  recipient_relationship : RecipientRelationship := RecipientRelationship.unknown
  include_attachment_reference : Bool := false
deriving DecidableEq

/-! ### Prompt compiler (`EmailService.build_prompt`, `app/services/email.py`) -/

/-- The list of lines appended by `build_prompt`, in order of the `parts`
accumulation of the source. -/
def buildParts (r : EmailRequest) : List String :=
  let parts : List String := ["Generate an email with the following specifications:"]
  let parts := if r.language ≠ EmailLanguage.english then
      parts ++ ["\n- IMPORTANT: Write the entire email in " ++ language_description r.language]
    else parts
  let parts := parts ++ ["\n- Tone: " ++ tone_description r.tone]
  let parts := parts ++ ["- Length: " ++ length_description r.length]
  let parts := parts ++ ["- Politeness: " ++ politeness_description r.politeness]
  let parts := parts ++ ["- Call-to-action: " ++ cta_description r.cta_strength]
  let parts := match urgency_description r.urgency with
    | some d => parts ++ ["- Urgency: " ++ d]
    | Option.none => parts
  let parts := match audience_description r.audience_type with
    | some d => parts ++ ["- Audience: " ++ d]
    | Option.none => parts
  let parts := match purpose_description r.purpose with
    | some d => parts ++ ["- Purpose: " ++ d]
    | Option.none => parts
  let parts := match industry_description r.industry with
    | some d => parts ++ ["- Industry: " ++ d]
    | Option.none => parts
  let parts := match relationship_description r.recipient_relationship with
    | some d => parts ++ ["- Relationship: " ++ d]
    | Option.none => parts
  let parts := match response_type_description r.response_type with
    | some d => parts ++ ["- Response type: " ++ d]
    | Option.none => parts
  let parts := if r.use_lists then
      parts ++ ["- Format: Use bullet points (with dashes -) and numbered lists where appropriate to organize information clearly"]
    else parts
  let parts := parts ++ ["- Salutation: " ++ salutation_description r.salutation_style]
  let parts := parts ++ ["- Sign-off: " ++ sign_off_description r.sign_off_style]
  let parts := if r.recipient_name ≠ "" then
      parts ++ ["- Recipient name: " ++ r.recipient_name]
    else parts
  let parts := if r.sender_name ≠ "" then
      parts ++ ["- Sender name (for signature): " ++ r.sender_name]
    else parts
  let parts := if r.include_attachment_reference then
      parts ++ ["- Include a natural reference to an attachment (e.g., \x27Please find attached...\x27 or \x27I have attached...\x27)"]
    else parts
  let parts := if r.keywords_to_include ≠ "" then
      let keywords := ((pySplit ',' r.keywords_to_include).map pyStrip).filter (fun k => k ≠ "")
      if keywords ≠ [] then
        parts ++ ["- MUST include these keywords/phrases naturally: " ++ String.intercalate ", " keywords]
      else parts
    else parts
  let parts := if r.incoming_email ≠ "" then
      parts ++ ["\n- This is a REPLY to the following email:\n```\n" ++ r.incoming_email ++ "\n```"]
    else parts
  let parts := if r.custom_instructions ≠ "" then
      parts ++ ["\n- Additional instructions: " ++ r.custom_instructions]
    else parts
  parts

/-- `EmailService.build_prompt`: the compiled user instruction block. -/
def build_prompt (r : EmailRequest) : String :=
  String.intercalate "\n" (buildParts r)

/-- `EmailRequest.temperature_float`, as an exact rational (`temperature/100`). -/
def temperature_float (r : EmailRequest) : Rat :=
  (r.temperature : Rat) / 100

/-! ### The fixed directive order stated by the specification -/

/-- The directive slots of the instruction block in the order fixed by the
specification: language override first if non-English, then tone, length,
politeness, call-to-action, urgency if present, audience, purpose, industry,
relationship, response type, formatting flag, salutation, sign-off, recipient
name, sender name, attachment reference, required keywords, reply context,
and free-text custom instructions last.  An inactive slot is `none`. -/
def promptSlots (r : EmailRequest) : List (Option String) :=
  [if r.language ≠ EmailLanguage.english then
      some ("\n- IMPORTANT: Write the entire email in " ++ language_description r.language)
    else Option.none,
   some ("\n- Tone: " ++ tone_description r.tone),
   some ("- Length: " ++ length_description r.length),
   some ("- Politeness: " ++ politeness_description r.politeness),
   some ("- Call-to-action: " ++ cta_description r.cta_strength),
   (urgency_description r.urgency).map (fun d => "- Urgency: " ++ d),
   (audience_description r.audience_type).map (fun d => "- Audience: " ++ d),
   (purpose_description r.purpose).map (fun d => "- Purpose: " ++ d),
   (industry_description r.industry).map (fun d => "- Industry: " ++ d),
   (relationship_description r.recipient_relationship).map (fun d => "- Relationship: " ++ d),
   (response_type_description r.response_type).map (fun d => "- Response type: " ++ d),
   if r.use_lists then
      some "- Format: Use bullet points (with dashes -) and numbered lists where appropriate to organize information clearly"
    else Option.none,
   some ("- Salutation: " ++ salutation_description r.salutation_style),
   some ("- Sign-off: " ++ sign_off_description r.sign_off_style),
   if r.recipient_name ≠ "" then some ("- Recipient name: " ++ r.recipient_name) else Option.none,
   if r.sender_name ≠ "" then
      some ("- Sender name (for signature): " ++ r.sender_name)
    else Option.none,
   if r.include_attachment_reference then
      some "- Include a natural reference to an attachment (e.g., \x27Please find attached...\x27 or \x27I have attached...\x27)"
    else Option.none,
   if r.keywords_to_include ≠ "" then
      (let keywords := ((pySplit ',' r.keywords_to_include).map pyStrip).filter (fun k => k ≠ "")
       if keywords ≠ [] then
         some ("- MUST include these keywords/phrases naturally: " ++ String.intercalate ", " keywords)
       else Option.none)
    else Option.none,
   if r.incoming_email ≠ "" then
      some ("\n- This is a REPLY to the following email:\n```\n" ++ r.incoming_email ++ "\n```")
    else Option.none,
   if r.custom_instructions ≠ "" then
      some ("\n- Additional instructions: " ++ r.custom_instructions)
    else Option.none]

theorem append_ite (c : Prop) [Decidable c] (p q : List String) :
    (if c then p ++ q else p) = p ++ (if c then q else []) := by
  split <;> simp

theorem toList_ite (c : Prop) [Decidable c] (x : String) :
    (if c then some x else Option.none).toList = if c then [x] else [] := by
  split <;> rfl

theorem toList_ite2 (c d : Prop) [Decidable c] [Decidable d] (x : String) :
    (if c then (if d then some x else Option.none) else Option.none).toList
      = if c then (if d then [x] else []) else [] := by
  split
  · split <;> rfl
  · rfl

theorem reduceOption_cons (o : Option String) (l : List (Option String)) :
    (o :: l).reduceOption = o.toList ++ l.reduceOption := by
  cases o <;> simp [List.reduceOption]

theorem reduceOption_nil_str : (([] : List (Option String))).reduceOption = [] := rfl

theorem map_opt_some (f : String → String) (x : String) : (some x).map f = some (f x) := rfl

theorem map_opt_none (f : String → String) : (Option.none : Option String).map f = Option.none := rfl

theorem toList_some_str (x : String) : (some x).toList = [x] := rfl

theorem toList_none_str : (Option.none : Option String).toList = [] := rfl

/-- The compiled instruction block is the header line followed by exactly the
active slots of `promptSlots`, in that order. -/
theorem buildParts_eq_header_slots (r : EmailRequest) :
    buildParts r
      = "Generate an email with the following specifications:" :: (promptSlots r).reduceOption := by
  unfold buildParts promptSlots
  rcases hu : urgency_description r.urgency with _ | du <;>
  rcases ha : audience_description r.audience_type with _ | da <;>
  rcases hp : purpose_description r.purpose with _ | dp <;>
  rcases hi : industry_description r.industry with _ | di <;>
  rcases hrel : relationship_description r.recipient_relationship with _ | dr <;>
  rcases ht : response_type_description r.response_type with _ | dt <;>
  (simp only [map_opt_some, map_opt_none, reduceOption_cons, toList_some_str, toList_none_str,
    toList_ite, toList_ite2, append_ite, reduceOption_nil_str]) <;>
  simp only [List.append_assoc, List.append_nil, List.nil_append, List.cons_append,
    List.singleton_append]

/-- **C6.** For every request, the compiled user instruction block is the
header line followed by the active directive lines in the fixed deterministic
order of `promptSlots`: language override first if non-English, then tone,
length, politeness, call-to-action, urgency if present, audience, purpose,
industry, relationship, response type, formatting flag, salutation, sign-off,
recipient name, sender name, attachment reference, required keywords, reply
context, and free-text custom instructions last. -/
theorem prompt_block_order (r : EmailRequest) :
    buildParts r
      = "Generate an email with the following specifications:" :: (promptSlots r).reduceOption :=
  buildParts_eq_header_slots r

/-- **C7.** Fields that are empty strings, `false`, or map to a `None`
directive are omitted entirely: a request with all optional/neutral fields at
their defaults compiles to exactly the header and the seven always-present
lines, with no optional directive line; a keywords field whose
comma-separated entries are all blank after trimming produces no keywords
line; and keyword lists are split on commas, trimmed, and blank entries
dropped, as on the concrete input `"a, ,b"`. -/
theorem optional_fields_omitted :
    (∀ r : EmailRequest,
      r.language = EmailLanguage.english → r.urgency < 20 →
      r.audience_type = AudienceType.general → r.purpose = PurposeTag.general →
      r.industry = IndustryContext.general →
      r.recipient_relationship = RecipientRelationship.unknown →
      r.response_type = ResponseType.none → r.use_lists = false →
      r.recipient_name = "" → r.sender_name = "" →
      r.include_attachment_reference = false → r.keywords_to_include = "" →
      r.incoming_email = "" → r.custom_instructions = "" →
      buildParts r = ["Generate an email with the following specifications:",
        "\n- Tone: " ++ tone_description r.tone,
        "- Length: " ++ length_description r.length,
        "- Politeness: " ++ politeness_description r.politeness,
        "- Call-to-action: " ++ cta_description r.cta_strength,
        "- Salutation: " ++ salutation_description r.salutation_style,
        "- Sign-off: " ++ sign_off_description r.sign_off_style]) ∧
    (∀ r : EmailRequest,
      ((pySplit ',' r.keywords_to_include).map pyStrip).filter (fun k => k ≠ "") = [] →
      buildParts r = buildParts { r with keywords_to_include := "" }) ∧
    "- MUST include these keywords/phrases naturally: a, b"
      ∈ buildParts { keywords_to_include := "a, ,b" } := by
  refine ⟨?_, ?_, ?_⟩
  · intro r h1 h2 h3 h4 h5 h6 h7 h8 h9 h10 h11 h12 h13 h14
    rw [buildParts_eq_header_slots]
    have hu : urgency_description r.urgency = Option.none := by
      unfold urgency_description urgency_level
      rw [if_pos h2]
    simp [promptSlots, h1, h3, h4, h5, h6, h7, h8, h9, h10, h11, h12, h13, h14, hu,
      audience_description, purpose_description, industry_description,
      relationship_description, response_type_description, List.reduceOption]
  · intro r h
    rw [buildParts_eq_header_slots, buildParts_eq_header_slots]
    have e1 : ¬ (([] : List String) ≠ []) := by simp
    have e2 : ¬ (("" : String) ≠ "") := by simp
    simp only [promptSlots, h, e1, e2, if_false, ite_self]
  · decide

/-- Witness for C7 at the all-defaults request. -/
theorem optional_fields_omitted_witness :
    buildParts ({} : EmailRequest)
      = ["Generate an email with the following specifications:",
         "\n- Tone: " ++ tone_description ({} : EmailRequest).tone,
         "- Length: " ++ length_description ({} : EmailRequest).length,
         "- Politeness: " ++ politeness_description ({} : EmailRequest).politeness,
         "- Call-to-action: " ++ cta_description ({} : EmailRequest).cta_strength,
         "- Salutation: " ++ salutation_description ({} : EmailRequest).salutation_style,
         "- Sign-off: " ++ sign_off_description ({} : EmailRequest).sign_off_style] :=
  optional_fields_omitted.1 {} rfl (by decide) rfl rfl rfl rfl rfl rfl rfl rfl rfl rfl rfl rfl

/-- **C5.** Each slider classifier is total on `[0, 100]` with exactly five
ordinal categories; boundary values fall into the next bucket (`20` is in the
second category, `19` and `20` differ), and `99` and `100` both map to the
highest category; the second category is exactly the range `[20, 40)`.  This
holds for each slider axis with its own label set. -/
theorem level_classifier_thresholds :
    ((∀ v : Fin 101, tone_level v.val
        ∈ [ToneLevel.very_formal, ToneLevel.formal, ToneLevel.neutral, ToneLevel.friendly,
           ToneLevel.casual]) ∧
     (∀ v : Fin 101, tone_level v.val = ToneLevel.formal ↔ 20 ≤ v.val ∧ v.val < 40) ∧
     tone_level 19 ≠ tone_level 20 ∧ tone_level 20 = ToneLevel.formal ∧
     tone_level 99 = tone_level 100 ∧ tone_level 100 = ToneLevel.casual) ∧
    ((∀ v : Fin 101, length_level v.val
        ∈ [LengthLevel.very_brief, LengthLevel.concise, LengthLevel.moderate,
           LengthLevel.detailed, LengthLevel.comprehensive]) ∧
     (∀ v : Fin 101, length_level v.val = LengthLevel.concise ↔ 20 ≤ v.val ∧ v.val < 40) ∧
     length_level 19 ≠ length_level 20 ∧ length_level 20 = LengthLevel.concise ∧
     length_level 99 = length_level 100 ∧ length_level 100 = LengthLevel.comprehensive) ∧
    ((∀ v : Fin 101, urgency_level v.val
        ∈ [UrgencyLevel.none, UrgencyLevel.low, UrgencyLevel.moderate, UrgencyLevel.high,
           UrgencyLevel.critical]) ∧
     (∀ v : Fin 101, urgency_level v.val = UrgencyLevel.low ↔ 20 ≤ v.val ∧ v.val < 40) ∧
     urgency_level 19 ≠ urgency_level 20 ∧ urgency_level 20 = UrgencyLevel.low ∧
     urgency_level 99 = urgency_level 100 ∧ urgency_level 100 = UrgencyLevel.critical) ∧
    ((∀ v : Fin 101, cta_strength_level v.val
        ∈ [CTAStrength.subtle, CTAStrength.gentle, CTAStrength.moderate, CTAStrength.direct,
           CTAStrength.strong]) ∧
     (∀ v : Fin 101, cta_strength_level v.val = CTAStrength.gentle ↔ 20 ≤ v.val ∧ v.val < 40) ∧
     cta_strength_level 19 ≠ cta_strength_level 20 ∧ cta_strength_level 20 = CTAStrength.gentle ∧
     cta_strength_level 99 = cta_strength_level 100 ∧
     cta_strength_level 100 = CTAStrength.strong) ∧
    ((∀ v : Fin 101, politeness_level v.val
        ∈ [PolitenessLevel.blunt, PolitenessLevel.direct, PolitenessLevel.polite,
           PolitenessLevel.very_polite, PolitenessLevel.deferential]) ∧
     (∀ v : Fin 101, politeness_level v.val = PolitenessLevel.direct ↔ 20 ≤ v.val ∧ v.val < 40) ∧
     politeness_level 19 ≠ politeness_level 20 ∧ politeness_level 20 = PolitenessLevel.direct ∧
     politeness_level 99 = politeness_level 100 ∧
     politeness_level 100 = PolitenessLevel.deferential) := by
  decide

/-! ### Construction-time validation (pydantic model `EmailRequest`) -/

/-- The raw field values submitted to `EmailRequest(...)`: sliders as
unconstrained integers, categoricals as raw strings.  Defaults as in the
source model. -/
structure RawEmailRequest where
  preset : String := "general"
  incoming_email : String := ""
  recipient_name : String := ""
  sender_name : String := ""
  tone : Int := 50
  length : Int := 50
  temperature : Int := 70
  use_lists : Bool := false
  custom_instructions : String := ""
  urgency : Int := 0
  cta_strength : Int := 50
  politeness : Int := 50
  salutation_style : String := "standard"
  sign_off_style : String := "professional"
  language : String := "english"
  audience_type : String := "general"
  purpose : String := "general"
  keywords_to_include : String := ""
  response_type : String := "none"
  industry : String := "general"
  recipient_relationship : String := "unknown"
  include_attachment_reference : Bool := false

def EmailPreset.ofString? : String → Option EmailPreset
  | "general" => some EmailPreset.general
  | "application" => some EmailPreset.application
  | "introduction" => some EmailPreset.introduction
  | "cold_email" => some EmailPreset.cold_email
  | "follow_up" => some EmailPreset.follow_up
  | _ => Option.none

def SalutationStyle.ofString? : String → Option SalutationStyle
  | "none" => some SalutationStyle.none
  | "formal" => some SalutationStyle.formal
  | "standard" => some SalutationStyle.standard
  | "friendly" => some SalutationStyle.friendly
  | "casual" => some SalutationStyle.casual
  | _ => Option.none

def SignOffStyle.ofString? : String → Option SignOffStyle
  | "none" => some SignOffStyle.none
  | "formal" => some SignOffStyle.formal
  | "professional" => some SignOffStyle.professional
  | "friendly" => some SignOffStyle.friendly
  | "casual" => some SignOffStyle.casual
  | "warm" => some SignOffStyle.warm
  | _ => Option.none

def EmailLanguage.ofString? : String → Option EmailLanguage
  | "english" => some EmailLanguage.english
  | "spanish" => some EmailLanguage.spanish
  | "french" => some EmailLanguage.french
  | "german" => some EmailLanguage.german
  | "italian" => some EmailLanguage.italian
  | "portuguese" => some EmailLanguage.portuguese
  | "dutch" => some EmailLanguage.dutch
  | "japanese" => some EmailLanguage.japanese
  | "chinese" => some EmailLanguage.chinese
  | "korean" => some EmailLanguage.korean
  | "hindi" => some EmailLanguage.hindi
  | "arabic" => some EmailLanguage.arabic
  | _ => Option.none

def AudienceType.ofString? : String → Option AudienceType
  | "general" => some AudienceType.general
  | "manager" => some AudienceType.manager
  | "executive" => some AudienceType.executive
  | "peer" => some AudienceType.peer
  | "subordinate" => some AudienceType.subordinate
  | "client" => some AudienceType.client
  | "vendor" => some AudienceType.vendor
  | "recruiter" => some AudienceType.recruiter
  | "professor" => some AudienceType.professor
  | "student" => some AudienceType.student
  | _ => Option.none

def PurposeTag.ofString? : String → Option PurposeTag
  | "general" => some PurposeTag.general
  | "request" => some PurposeTag.request
  | "inform" => some PurposeTag.inform
  | "persuade" => some PurposeTag.persuade
  | "thank" => some PurposeTag.thank
  | "apologize" => some PurposeTag.apologize
  | "negotiate" => some PurposeTag.negotiate
  | "decline" => some PurposeTag.decline
  | "introduce" => some PurposeTag.introduce
  | "follow_up" => some PurposeTag.follow_up
  | _ => Option.none

def ResponseType.ofString? : String → Option ResponseType
  | "none" => some ResponseType.none
  | "accept" => some ResponseType.accept
  | "decline" => some ResponseType.decline
  | "counter_offer" => some ResponseType.counter_offer
  | "request_clarification" => some ResponseType.request_clarification
  | "acknowledge" => some ResponseType.acknowledge
  | "defer" => some ResponseType.defer
  | _ => Option.none

def IndustryContext.ofString? : String → Option IndustryContext
  | "general" => some IndustryContext.general
  | "tech" => some IndustryContext.tech
  | "finance" => some IndustryContext.finance
  | "legal" => some IndustryContext.legal
  | "medical" => some IndustryContext.medical
  | "academic" => some IndustryContext.academic
  | "sales" => some IndustryContext.sales
  | "hr" => some IndustryContext.hr
  | "marketing" => some IndustryContext.marketing
  | "consulting" => some IndustryContext.consulting
  | _ => Option.none

def RecipientRelationship.ofString? : String → Option RecipientRelationship
  | "unknown" => some RecipientRelationship.unknown
  | "first_contact" => some RecipientRelationship.first_contact
  | "new_acquaintance" => some RecipientRelationship.new_acquaintance
  | "established" => some RecipientRelationship.established
  | "close_colleague" => some RecipientRelationship.close_colleague
  | "internal" => some RecipientRelationship.internal
  | "external" => some RecipientRelationship.external
  | _ => Option.none

/-- Pydantic integer field with `ge=0, le=100`: out-of-range values are
rejected with a validation error, in-range values stored unchanged. -/
def sliderField (name : String) (v : Int) : Except String Nat :=
  if v < 0 then Except.error (name ++ ": input should be greater than or equal to 0")
  else if 100 < v then Except.error (name ++ ": input should be less than or equal to 100")
  else Except.ok v.toNat

/-- Pydantic enum field: unknown values are rejected with a validation
error. -/
def enumField {α : Type} (name : String) (parse : String → Option α) (s : String) :
    Except String α :=
  match parse s with
  | some a => Except.ok a
  | Option.none => Except.error (name ++ ": input should be a valid enumeration member")

/-- Pydantic validation of `EmailRequest(...)`: every slider is checked
against `ge=0, le=100`, every categorical against its closed enum; the first
violation is reported to the caller as a rejected-input error. -/
def mkEmailRequest (raw : RawEmailRequest) : Except String EmailRequest :=
  match enumField "preset" EmailPreset.ofString? raw.preset with
  | Except.error e => Except.error e
  | Except.ok preset =>
  match sliderField "tone" raw.tone with
  | Except.error e => Except.error e
  | Except.ok tone =>
  match sliderField "length" raw.length with
  | Except.error e => Except.error e
  | Except.ok length =>
  match sliderField "temperature" raw.temperature with
  | Except.error e => Except.error e
  | Except.ok temperature =>
  match sliderField "urgency" raw.urgency with
  | Except.error e => Except.error e
  | Except.ok urgency =>
  match sliderField "cta_strength" raw.cta_strength with
  | Except.error e => Except.error e
  | Except.ok cta_strength =>
  match sliderField "politeness" raw.politeness with
  | Except.error e => Except.error e
  | Except.ok politeness =>
  match enumField "salutation_style" SalutationStyle.ofString? raw.salutation_style with
  | Except.error e => Except.error e
  | Except.ok salutation_style =>
  match enumField "sign_off_style" SignOffStyle.ofString? raw.sign_off_style with
  | Except.error e => Except.error e
  | Except.ok sign_off_style =>
  match enumField "language" EmailLanguage.ofString? raw.language with
  | Except.error e => Except.error e
  | Except.ok language =>
  match enumField "audience_type" AudienceType.ofString? raw.audience_type with
  | Except.error e => Except.error e
  | Except.ok audience_type =>
  match enumField "purpose" PurposeTag.ofString? raw.purpose with
  | Except.error e => Except.error e
  | Except.ok purpose =>
  match enumField "response_type" ResponseType.ofString? raw.response_type with
  | Except.error e => Except.error e
  | Except.ok response_type =>
  match enumField "industry" IndustryContext.ofString? raw.industry with
  | Except.error e => Except.error e
  | Except.ok industry =>
  match enumField "recipient_relationship" RecipientRelationship.ofString?
      raw.recipient_relationship with
  | Except.error e => Except.error e
  | Except.ok recipient_relationship =>
  Except.ok
    { preset := preset, incoming_email := raw.incoming_email,
      recipient_name := raw.recipient_name, sender_name := raw.sender_name,
      tone := tone, length := length, temperature := temperature,
      use_lists := raw.use_lists, custom_instructions := raw.custom_instructions,
      urgency := urgency, cta_strength := cta_strength, politeness := politeness,
      salutation_style := salutation_style, sign_off_style := sign_off_style,
      language := language, audience_type := audience_type, purpose := purpose,
      keywords_to_include := raw.keywords_to_include, response_type := response_type,
      industry := industry, recipient_relationship := recipient_relationship,
      include_attachment_reference := raw.include_attachment_reference }

theorem sliderField_ok (name : String) (v : Int) (n : Nat)
    (h : sliderField name v = Except.ok n) : 0 ≤ v ∧ v ≤ 100 ∧ (n : Int) = v := by
  unfold sliderField at h
  split at h
  · exact Except.noConfusion h
  · split at h
    · exact Except.noConfusion h
    · injection h with h'
      subst h'
      refine ⟨by omega, by omega, by omega⟩

theorem enumField_ok {α : Type} (name : String) (parse : String → Option α) (s : String) (a : α)
    (h : enumField name parse s = Except.ok a) : parse s = some a := by
  unfold enumField at h
  cases hp : parse s with
  | none =>
    rw [hp] at h
    exact Except.noConfusion h
  | some b =>
    rw [hp] at h
    injection h with h'
    subst h'
    rfl

theorem mkEmailRequest_ok_inversion (raw : RawEmailRequest) (r : EmailRequest)
    (h : mkEmailRequest raw = Except.ok r) :
    EmailPreset.ofString? raw.preset = some r.preset
    ∧ (0 ≤ raw.tone ∧ raw.tone ≤ 100 ∧ (r.tone : Int) = raw.tone)
    ∧ (0 ≤ raw.length ∧ raw.length ≤ 100 ∧ (r.length : Int) = raw.length)
    ∧ (0 ≤ raw.temperature ∧ raw.temperature ≤ 100 ∧ (r.temperature : Int) = raw.temperature)
    ∧ (0 ≤ raw.urgency ∧ raw.urgency ≤ 100 ∧ (r.urgency : Int) = raw.urgency)
    ∧ (0 ≤ raw.cta_strength ∧ raw.cta_strength ≤ 100 ∧ (r.cta_strength : Int) = raw.cta_strength)
    ∧ (0 ≤ raw.politeness ∧ raw.politeness ≤ 100 ∧ (r.politeness : Int) = raw.politeness)
    ∧ SalutationStyle.ofString? raw.salutation_style = some r.salutation_style
    ∧ SignOffStyle.ofString? raw.sign_off_style = some r.sign_off_style
    ∧ EmailLanguage.ofString? raw.language = some r.language
    ∧ AudienceType.ofString? raw.audience_type = some r.audience_type
    ∧ PurposeTag.ofString? raw.purpose = some r.purpose
    ∧ ResponseType.ofString? raw.response_type = some r.response_type
    ∧ IndustryContext.ofString? raw.industry = some r.industry
    ∧ RecipientRelationship.ofString? raw.recipient_relationship = some r.recipient_relationship
    ∧ r.incoming_email = raw.incoming_email ∧ r.recipient_name = raw.recipient_name
    ∧ r.sender_name = raw.sender_name ∧ r.use_lists = raw.use_lists
    ∧ r.custom_instructions = raw.custom_instructions
    ∧ r.keywords_to_include = raw.keywords_to_include
    ∧ r.include_attachment_reference = raw.include_attachment_reference := by
  unfold mkEmailRequest at h
  obtain ⟨preset, hpre⟩ : ∃ a, enumField "preset" EmailPreset.ofString? raw.preset
      = Except.ok a := by
    cases hx : enumField "preset" EmailPreset.ofString? raw.preset with
    | error e => rw [hx] at h; exact Except.noConfusion h
    | ok a => exact ⟨a, rfl⟩
  rw [hpre] at h
  obtain ⟨tone, htone⟩ : ∃ n, sliderField "tone" raw.tone = Except.ok n := by
    cases hx : sliderField "tone" raw.tone with
    | error e => rw [hx] at h; exact Except.noConfusion h
    | ok a => exact ⟨a, rfl⟩
  rw [htone] at h
  obtain ⟨length, hlen⟩ : ∃ n, sliderField "length" raw.length = Except.ok n := by
    cases hx : sliderField "length" raw.length with
    | error e => rw [hx] at h; exact Except.noConfusion h
    | ok a => exact ⟨a, rfl⟩
  rw [hlen] at h
  obtain ⟨temperature, htemp⟩ : ∃ n, sliderField "temperature" raw.temperature
      = Except.ok n := by
    cases hx : sliderField "temperature" raw.temperature with
    | error e => rw [hx] at h; exact Except.noConfusion h
    | ok a => exact ⟨a, rfl⟩
  rw [htemp] at h
  obtain ⟨urgency, hurg⟩ : ∃ n, sliderField "urgency" raw.urgency = Except.ok n := by
    cases hx : sliderField "urgency" raw.urgency with
    | error e => rw [hx] at h; exact Except.noConfusion h
    | ok a => exact ⟨a, rfl⟩
  rw [hurg] at h
  obtain ⟨cta, hcta⟩ : ∃ n, sliderField "cta_strength" raw.cta_strength = Except.ok n := by
    cases hx : sliderField "cta_strength" raw.cta_strength with
    | error e => rw [hx] at h; exact Except.noConfusion h
    | ok a => exact ⟨a, rfl⟩
  rw [hcta] at h
  obtain ⟨pol, hpol⟩ : ∃ n, sliderField "politeness" raw.politeness = Except.ok n := by
    cases hx : sliderField "politeness" raw.politeness with
    | error e => rw [hx] at h; exact Except.noConfusion h
    | ok a => exact ⟨a, rfl⟩
  rw [hpol] at h
  obtain ⟨sal, hsal⟩ : ∃ a, enumField "salutation_style" SalutationStyle.ofString?
      raw.salutation_style = Except.ok a := by
    cases hx : enumField "salutation_style" SalutationStyle.ofString? raw.salutation_style with
    | error e => rw [hx] at h; exact Except.noConfusion h
    | ok a => exact ⟨a, rfl⟩
  rw [hsal] at h
  obtain ⟨soff, hsoff⟩ : ∃ a, enumField "sign_off_style" SignOffStyle.ofString?
      raw.sign_off_style = Except.ok a := by
    cases hx : enumField "sign_off_style" SignOffStyle.ofString? raw.sign_off_style with
    | error e => rw [hx] at h; exact Except.noConfusion h
    | ok a => exact ⟨a, rfl⟩
  rw [hsoff] at h
  obtain ⟨lang, hlang⟩ : ∃ a, enumField "language" EmailLanguage.ofString? raw.language
      = Except.ok a := by
    cases hx : enumField "language" EmailLanguage.ofString? raw.language with
    | error e => rw [hx] at h; exact Except.noConfusion h
    | ok a => exact ⟨a, rfl⟩
  rw [hlang] at h
  obtain ⟨aud, haud⟩ : ∃ a, enumField "audience_type" AudienceType.ofString?
      raw.audience_type = Except.ok a := by
    cases hx : enumField "audience_type" AudienceType.ofString? raw.audience_type with
    | error e => rw [hx] at h; exact Except.noConfusion h
    | ok a => exact ⟨a, rfl⟩
  rw [haud] at h
  obtain ⟨pur, hpur⟩ : ∃ a, enumField "purpose" PurposeTag.ofString? raw.purpose
      = Except.ok a := by
    cases hx : enumField "purpose" PurposeTag.ofString? raw.purpose with
    | error e => rw [hx] at h; exact Except.noConfusion h
    | ok a => exact ⟨a, rfl⟩
  rw [hpur] at h
  obtain ⟨rt, hrt⟩ : ∃ a, enumField "response_type" ResponseType.ofString?
      raw.response_type = Except.ok a := by
    cases hx : enumField "response_type" ResponseType.ofString? raw.response_type with
    | error e => rw [hx] at h; exact Except.noConfusion h
    | ok a => exact ⟨a, rfl⟩
  rw [hrt] at h
  obtain ⟨ind, hind⟩ : ∃ a, enumField "industry" IndustryContext.ofString? raw.industry
      = Except.ok a := by
    cases hx : enumField "industry" IndustryContext.ofString? raw.industry with
    | error e => rw [hx] at h; exact Except.noConfusion h
    | ok a => exact ⟨a, rfl⟩
  rw [hind] at h
  obtain ⟨rel, hrel⟩ : ∃ a, enumField "recipient_relationship"
      RecipientRelationship.ofString? raw.recipient_relationship = Except.ok a := by
    cases hx : enumField "recipient_relationship" RecipientRelationship.ofString?
        raw.recipient_relationship with
    | error e => rw [hx] at h; exact Except.noConfusion h
    | ok a => exact ⟨a, rfl⟩
  rw [hrel] at h
  injection h with h'
  subst h'
  exact ⟨enumField_ok _ _ _ _ hpre, sliderField_ok _ _ _ htone, sliderField_ok _ _ _ hlen,
    sliderField_ok _ _ _ htemp, sliderField_ok _ _ _ hurg, sliderField_ok _ _ _ hcta,
    sliderField_ok _ _ _ hpol, enumField_ok _ _ _ _ hsal, enumField_ok _ _ _ _ hsoff,
    enumField_ok _ _ _ _ hlang, enumField_ok _ _ _ _ haud, enumField_ok _ _ _ _ hpur,
    enumField_ok _ _ _ _ hrt, enumField_ok _ _ _ _ hind, enumField_ok _ _ _ _ hrel,
    rfl, rfl, rfl, rfl, rfl, rfl, rfl⟩

/-- **C3 (counterexample).** Constructing a request with `tone = 101` does not
succeed with the value clamped to `100`: construction is rejected. -/
theorem slider_clamping_counterexample :
    ¬ ∃ r : EmailRequest, mkEmailRequest { tone := 101 } = Except.ok r ∧ r.tone = 100 := by
  rintro ⟨r, hok, -⟩
  have he : mkEmailRequest { tone := 101 }
      = Except.error "tone: input should be less than or equal to 100" := rfl
  rw [he] at hok
  exact Except.noConfusion hok

/-- **C3 (amended).** Slider values are not clamped at construction: an
out-of-range slider value (on any of the six slider fields) makes construction
fail with a validation error, and on success every stored slider value equals
the raw input unchanged. -/
theorem sliders_rejected_not_clamped :
    (∀ raw : RawEmailRequest,
      (raw.tone < 0 ∨ 100 < raw.tone ∨ raw.length < 0 ∨ 100 < raw.length ∨
       raw.temperature < 0 ∨ 100 < raw.temperature ∨ raw.urgency < 0 ∨ 100 < raw.urgency ∨
       raw.cta_strength < 0 ∨ 100 < raw.cta_strength ∨
       raw.politeness < 0 ∨ 100 < raw.politeness) →
      ∀ r : EmailRequest, mkEmailRequest raw ≠ Except.ok r) ∧
    (∀ (raw : RawEmailRequest) (r : EmailRequest), mkEmailRequest raw = Except.ok r →
      (r.tone : Int) = raw.tone ∧ (r.length : Int) = raw.length ∧
      (r.temperature : Int) = raw.temperature ∧ (r.urgency : Int) = raw.urgency ∧
      (r.cta_strength : Int) = raw.cta_strength ∧ (r.politeness : Int) = raw.politeness) := by
  constructor
  · intro raw hd r hok
    obtain ⟨-, ⟨ht0, ht1, -⟩, ⟨hl0, hl1, -⟩, ⟨hm0, hm1, -⟩, ⟨hu0, hu1, -⟩, ⟨hc0, hc1, -⟩,
      ⟨hp0, hp1, -⟩, -⟩ := mkEmailRequest_ok_inversion raw r hok
    omega
  · intro raw r hok
    obtain ⟨-, ⟨-, -, ht⟩, ⟨-, -, hl⟩, ⟨-, -, hm⟩, ⟨-, -, hu⟩, ⟨-, -, hc⟩, ⟨-, -, hp⟩, -⟩ :=
      mkEmailRequest_ok_inversion raw r hok
    exact ⟨ht, hl, hm, hu, hc, hp⟩

/-- Witness for C3 (amended): `tone = 101` is rejected. -/
theorem sliders_rejected_not_clamped_witness :
    mkEmailRequest { tone := 101 } ≠ Except.ok ({} : EmailRequest) :=
  sliders_rejected_not_clamped.1 { tone := 101 } (by decide) {}

/-- **C4.** Construction with an out-of-range slider or an unknown categorical
value is rejected with a validation error; on success nothing is silently
clamped or substituted: every stored value is exactly the parse of the raw
input. -/
theorem invalid_request_rejected :
    (∀ raw : RawEmailRequest,
      ((raw.tone < 0 ∨ 100 < raw.tone ∨ raw.length < 0 ∨ 100 < raw.length ∨
        raw.temperature < 0 ∨ 100 < raw.temperature ∨ raw.urgency < 0 ∨ 100 < raw.urgency ∨
        raw.cta_strength < 0 ∨ 100 < raw.cta_strength ∨
        raw.politeness < 0 ∨ 100 < raw.politeness) ∨
       (EmailPreset.ofString? raw.preset = Option.none ∨
        SalutationStyle.ofString? raw.salutation_style = Option.none ∨
        SignOffStyle.ofString? raw.sign_off_style = Option.none ∨
        EmailLanguage.ofString? raw.language = Option.none ∨
        AudienceType.ofString? raw.audience_type = Option.none ∨
        PurposeTag.ofString? raw.purpose = Option.none ∨
        ResponseType.ofString? raw.response_type = Option.none ∨
        IndustryContext.ofString? raw.industry = Option.none ∨
        RecipientRelationship.ofString? raw.recipient_relationship = Option.none)) →
      ∀ r : EmailRequest, mkEmailRequest raw ≠ Except.ok r) ∧
    (∀ (raw : RawEmailRequest) (r : EmailRequest), mkEmailRequest raw = Except.ok r →
      EmailPreset.ofString? raw.preset = some r.preset ∧
      SalutationStyle.ofString? raw.salutation_style = some r.salutation_style ∧
      SignOffStyle.ofString? raw.sign_off_style = some r.sign_off_style ∧
      EmailLanguage.ofString? raw.language = some r.language ∧
      AudienceType.ofString? raw.audience_type = some r.audience_type ∧
      PurposeTag.ofString? raw.purpose = some r.purpose ∧
      ResponseType.ofString? raw.response_type = some r.response_type ∧
      IndustryContext.ofString? raw.industry = some r.industry ∧
      RecipientRelationship.ofString? raw.recipient_relationship = some r.recipient_relationship ∧
      (r.tone : Int) = raw.tone ∧ (r.length : Int) = raw.length ∧
      (r.temperature : Int) = raw.temperature ∧ (r.urgency : Int) = raw.urgency ∧
      (r.cta_strength : Int) = raw.cta_strength ∧ (r.politeness : Int) = raw.politeness) := by
  constructor
  · intro raw hd r hok
    obtain ⟨hpre, ⟨ht0, ht1, -⟩, ⟨hl0, hl1, -⟩, ⟨hm0, hm1, -⟩, ⟨hu0, hu1, -⟩, ⟨hc0, hc1, -⟩,
      ⟨hp0, hp1, -⟩, hsal, hsoff, hlang, haud, hpur, hrt, hind, hrel, -⟩ :=
      mkEmailRequest_ok_inversion raw r hok
    rcases hd with hs | he
    · omega
    · rcases he with h | h | h | h | h | h | h | h | h <;> simp_all
  · intro raw r hok
    obtain ⟨hpre, ⟨-, -, ht⟩, ⟨-, -, hl⟩, ⟨-, -, hm⟩, ⟨-, -, hu⟩, ⟨-, -, hc⟩, ⟨-, -, hp⟩,
      hsal, hsoff, hlang, haud, hpur, hrt, hind, hrel, -⟩ :=
      mkEmailRequest_ok_inversion raw r hok
    exact ⟨hpre, hsal, hsoff, hlang, haud, hpur, hrt, hind, hrel, ht, hl, hm, hu, hc, hp⟩

/-- Witness for C4: `tone = -5` and an unknown language are both rejected. -/
theorem invalid_request_rejected_witness :
    (mkEmailRequest { tone := -5 } ≠ Except.ok ({} : EmailRequest)) ∧
    (mkEmailRequest { language := "klingon" } ≠ Except.ok ({} : EmailRequest)) :=
  ⟨invalid_request_rejected.1 { tone := -5 } (Or.inl (by decide)) {},
   invalid_request_rejected.1 { language := "klingon" } (Or.inr (by decide)) {}⟩

/-! ### Response parser (`EmailService.parse_response`, `app/services/email.py`) -/

/-- Python values produced by `json.loads`. -/
inductive PyJson where
  | null
  | bool (b : Bool)
  | int (n : Int)
  | str (s : String)
  | arr (elts : List PyJson)
  | obj (entries : List (String × PyJson))

/-- The parsed `EmailResponse` record (`app/models.py`). -/
structure EmailResponse where
  subject : String
  subject_variants : List String
  body : String
  spam_score : Int
  spam_warnings : List String
deriving DecidableEq

/-- Python exceptions that `parse_response` can let escape. -/
inductive PyExc
  | attributeError | typeError | validationError
deriving DecidableEq

/-- Python `dict.get(key, default)`; with duplicate keys the last wins, as in
`json.loads`. -/
def pyDictGet (entries : List (String × PyJson)) (key : String) (dflt : PyJson) : PyJson :=
  match entries.reverse.lookup key with
  | some v => v
  | Option.none => dflt

def strList : List PyJson → Option (List String)
  | [] => some []
  | PyJson.str s :: rest => (strList rest).map (fun l => s :: l)
  | _ => Option.none

/-- Pydantic validation of `subject_variants: list[str]`. -/
def asStrList : PyJson → Option (List String)
  | PyJson.arr xs => strList xs
  | _ => Option.none

/-- Pydantic construction `EmailResponse(...)`: `subject_variants` must be a
list of strings and `spam_score` must lie in `[0, 100]`. -/
def mkEmailResponse (subject : String) (variants : Option (List String)) (body : String)
    (score : Int) (warns : List String) : Except PyExc EmailResponse :=
  match variants with
  | Option.none => Except.error PyExc.validationError
  | some vs =>
    if 0 ≤ score ∧ score ≤ 100 then Except.ok ⟨subject, vs, body, score, warns⟩
    else Except.error PyExc.validationError

/-- `EmailService.parse_response`.  `json.loads` is an external library call
and is passed in as the already-computed decode outcome `loads`
(`Except.error ()` is `json.JSONDecodeError`).  Only `JSONDecodeError` is
caught by the source; a decode to a non-object raises `AttributeError` at
`data.get`, and a non-string `subject`/`body` value raises `TypeError` at
`subject + " " + body`. -/
def parse_response (content : String) (loads : Except Unit PyJson) :
    Except PyExc EmailResponse :=
  match loads with
  | Except.error _ =>
    let p := calculate_spam_score "Generated Email" content
    mkEmailResponse "Generated Email" (some []) content p.1 p.2
  | Except.ok data =>
    match data with
    | PyJson.obj entries =>
      match pyDictGet entries "subject" (PyJson.str "Generated Email"),
            pyDictGet entries "body" (PyJson.str content) with
      | PyJson.str subject, PyJson.str body =>
        let p := calculate_spam_score subject body
        mkEmailResponse subject
          (asStrList (pyDictGet entries "subject_variants" (PyJson.arr []))) body p.1 p.2
      | _, _ => Except.error PyExc.typeError
    | _ => Except.error PyExc.attributeError

/-- **C1 (counterexample).** `parse_response` does not return a result for
every input: the reply `"5"` is decodable JSON (`json.loads "5" = 5`), the
`except` clause does not fire, and `data.get` on the integer raises
`AttributeError` past the boundary. -/
theorem parse_response_totality_counterexample :
    ¬ ∃ resp, parse_response "5" (Except.ok (PyJson.int 5)) = Except.ok resp := by
  rintro ⟨resp, h⟩
  exact Except.noConfusion h

/-- **C1 (amended).** Whenever JSON decoding fails, `parse_response` returns a
result rather than raising: subject is the placeholder `"Generated Email"`,
variants are empty, the body is the raw undecoded text, and the risk scorer is
still run over `("Generated Email", raw text)` — never skipped.  (Totality
over all inputs does not hold: see the counterexample for inputs that decode
to a non-object JSON value.) -/
theorem parse_response_decode_failure_fallback (content : String) :
    parse_response content (Except.error ())
      = Except.ok ⟨"Generated Email", [], content,
          (calculate_spam_score "Generated Email" content).1,
          (calculate_spam_score "Generated Email" content).2⟩ := by
  have hb := spam_score_bounds "Generated Email" content
  simp only [parse_response, mkEmailResponse]
  rw [if_pos hb]

/-- **C10.** When the input decodes to a JSON object that lacks the
`"subject"` or the `"body"` key (variants absent as well), the success branch
still returns a result: the missing subject defaults to `"Generated Email"`,
the missing body defaults to the entire raw input string, and the risk fields
are computed over those defaulted values. -/
theorem parse_response_missing_fields_default (content s b : String)
    (entries : List (String × PyJson))
    (hvar : entries.reverse.lookup "subject_variants" = Option.none) :
    (entries.reverse.lookup "subject" = Option.none →
     entries.reverse.lookup "body" = some (PyJson.str b) →
     parse_response content (Except.ok (PyJson.obj entries))
       = Except.ok ⟨"Generated Email", [], b,
           (calculate_spam_score "Generated Email" b).1,
           (calculate_spam_score "Generated Email" b).2⟩) ∧
    (entries.reverse.lookup "subject" = some (PyJson.str s) →
     entries.reverse.lookup "body" = Option.none →
     parse_response content (Except.ok (PyJson.obj entries))
       = Except.ok ⟨s, [], content,
           (calculate_spam_score s content).1,
           (calculate_spam_score s content).2⟩) ∧
    (entries.reverse.lookup "subject" = Option.none →
     entries.reverse.lookup "body" = Option.none →
     parse_response content (Except.ok (PyJson.obj entries))
       = Except.ok ⟨"Generated Email", [], content,
           (calculate_spam_score "Generated Email" content).1,
           (calculate_spam_score "Generated Email" content).2⟩) := by
  refine ⟨?_, ?_, ?_⟩
  · intro hsub hbody
    have hb := spam_score_bounds "Generated Email" b
    simp only [parse_response, pyDictGet, hsub, hbody, hvar, asStrList, strList, mkEmailResponse]
    rw [if_pos hb]
  · intro hsub hbody
    have hb := spam_score_bounds s content
    simp only [parse_response, pyDictGet, hsub, hbody, hvar, asStrList, strList, mkEmailResponse]
    rw [if_pos hb]
  · intro hsub hbody
    have hb := spam_score_bounds "Generated Email" content
    simp only [parse_response, pyDictGet, hsub, hbody, hvar, asStrList, strList, mkEmailResponse]
    rw [if_pos hb]

/-- Witness for C10 at the empty JSON object. -/
theorem parse_response_missing_fields_default_witness :
    parse_response "hello" (Except.ok (PyJson.obj []))
      = Except.ok ⟨"Generated Email", [], "hello",
          (calculate_spam_score "Generated Email" "hello").1,
          (calculate_spam_score "Generated Email" "hello").2⟩ :=
  (parse_response_missing_fields_default "hello" "x" "y" [] rfl).2.2 rfl rfl
